import Mathlib

/-!
Shallow embedding of the agentic-retrieval quickstart pipeline
(TypeScript sources): the document source adapter with its
normalization and fallback behaviour, the indexing convergence
polling loop, the buffered upload channel lifecycle, the knowledge
source / knowledge base registration logic, and the retrieval
session conversation flow.
-/

namespace AgenticQuickstart

/-- The target document schema (`interface EarthAtNightDocument`):
a string key, free-text content, an embedding vector (values modelled
as rationals: 0.1 is the rational 1/10), and a page ordinal. -/
structure EarthAtNightDocument where
  id : String
  page_chunk : String
  page_embedding_text_3_large : List ℚ
  page_number : Int
deriving DecidableEq, Repr

/-- A raw fetched JSON record, before normalization.  Each field may be
absent (`none`, JS `undefined`/`null`) or present with any value,
including a falsy one (empty string, zero). `content` is the alternate
content field the code probes with `doc.page_chunk || doc.content`. -/
structure RawDoc where
  id : Option String
  page_chunk : Option String
  content : Option String
  page_embedding_text_3_large : Option (List ℚ)
  page_number : Option Int
deriving DecidableEq, Repr

/-- JS `a || b` on an optional string: the default is taken when the
field is absent or the present value is the empty string (falsy). -/
def jsOrString : Option String → String → String
  | none, d => d
  | some s, d => if s = "" then d else s

/-- JS `a || b` on an optional number: the default is taken when the
field is absent or the present value is `0` (falsy). -/
def jsOrInt : Option Int → Int → Int
  | none, d => d
  | some n, d => if n = 0 then d else n

/-- JS `a || b` on an optional array: only an absent field takes the
default (a present array is always truthy, even when empty). -/
def jsOrArray : Option (List ℚ) → List ℚ → List ℚ
  | none, d => d
  | some l, _ => l

/-- The record normalization inside `fetchEarthAtNightDocuments`
(`documents.map((doc, index) => ...)`): each field is defaulted with
the JS logical-OR operator exactly as in the source. -/
def normalizeDoc (index : Nat) (doc : RawDoc) : EarthAtNightDocument :=
  { id := jsOrString doc.id (toString (index + 1))
    page_chunk := jsOrString doc.page_chunk (jsOrString doc.content "")
    page_embedding_text_3_large :=
      jsOrArray doc.page_embedding_text_3_large (List.replicate 3072 (1/10 : ℚ))
    page_number := jsOrInt doc.page_number (Int.ofNat (index + 1)) }

/-- The built-in fallback documents returned by
`fetchEarthAtNightDocuments` when the remote fetch fails. -/
def fallbackDocuments : List EarthAtNightDocument :=
  [ { id := "1"
      page_chunk := "The Earth at night reveals the patterns of human settlement and economic activity. City lights trace the contours of civilization, creating a luminous map of where people live and work."
      page_embedding_text_3_large := List.replicate 3072 (1/10 : ℚ)
      page_number := 1 }
  , { id := "2"
      page_chunk := "From space, the aurora borealis appears as shimmering curtains of green and blue light dancing across the polar regions."
      page_embedding_text_3_large := List.replicate 3072 (2/10 : ℚ)
      page_number := 2 } ]

/-- The possible transport outcomes of the single `fetch` attempt made
by the adapter: a success carrying the parsed record array, a
non-success HTTP response (`!response.ok`, which the code turns into a
thrown error inside its own `try`), or a payload on which `json()`
throws. -/
inductive FetchOutcome where
  | ok (docs : List RawDoc)
  | httpError (status : Nat)
  | malformed
deriving DecidableEq

/-- `fetchEarthAtNightDocuments`: on a successful transport outcome the
records are normalized positionally; every failure outcome is caught by
the function's own `catch` and replaced with the built-in fallback set.
The function is total: no outcome propagates a failure to the caller. -/
def fetchEarthAtNightDocuments : FetchOutcome → List EarthAtNightDocument
  | .ok docs => docs.mapIdx normalizeDoc
  | .httpError _ => fallbackDocuments
  | .malformed => fallbackDocuments

/-- `export const WAIT_TIME = 4000` — the fixed polling interval of the
convergence loop, in milliseconds. -/
def WAIT_TIME : Nat := 4000

/-- An observable event of the convergence monitor: a read of the
reported document count (`searchClient.getDocumentsCount()`), or an
awaited delay of the given number of milliseconds (`delay(t)`). -/
inductive MonitorEvent where
  | readCount (n : Nat)
  | delayMs (t : Nat)
deriving DecidableEq, Repr

/-- The polling loop body: read the i-th reported count; if it equals
`expected` return (recording which read converged), otherwise await
`delay(WAIT_TIME)` and poll again.  `counts i` is the value the index
reports on the i-th read; `fuel` bounds how many reads we observe, and
exhausting it leaves the loop still running (`none`), mirroring
`while (count !== documents.length) { await delay(WAIT_TIME); count = await searchClient.getDocumentsCount(); }`. -/
def monitorLoop (expected : Nat) (counts : Nat → Nat) (i : Nat) :
    Nat → List MonitorEvent × Option Nat
  | 0 => ([], none)
  | fuel + 1 =>
    if counts i = expected then
      ([MonitorEvent.readCount (counts i)], some i)
    else
      let rest := monitorLoop expected counts (i + 1) fuel
      (MonitorEvent.readCount (counts i) :: MonitorEvent.delayMs WAIT_TIME :: rest.1,
        rest.2)

/-- The whole convergence wait: an initial `delay(WAIT_TIME)` is awaited
before the first count read, then the polling loop runs. -/
def awaitConvergence (expected : Nat) (counts : Nat → Nat) (fuel : Nat) :
    List MonitorEvent × Option Nat :=
  let r := monitorLoop expected counts 0 fuel
  (MonitorEvent.delayMs WAIT_TIME :: r.1, r.2)

/-- Checks that in a monitor trace, every count read unequal to
`expected` is immediately followed by a `WAIT_TIME` (4000 ms) delay. -/
def unequalReadsDelayed (expected : Nat) : List MonitorEvent → Bool
  | [] => true
  | MonitorEvent.readCount n :: rest =>
    (n == expected ||
      match rest with
      | MonitorEvent.delayMs t :: _ => t == WAIT_TIME
      | _ => false) &&
    unequalReadsDelayed expected rest
  | MonitorEvent.delayMs _ :: rest => unequalReadsDelayed expected rest

/-- The value of the last count read in a monitor trace, if any. -/
def lastRead : List MonitorEvent → Option Nat
  | [] => none
  | MonitorEvent.readCount n :: rest =>
    match lastRead rest with
    | none => some n
    | some m => some m
  | MonitorEvent.delayMs _ :: rest => lastRead rest

/-- A lifecycle operation invoked on the buffered upload channel
(`SearchIndexingBufferedSender`): construction, the awaited
`uploadDocuments`, `flush`, and `dispose`. -/
inductive ChannelEvent where
  | construct
  | upload
  | flush
  | dispose
deriving DecidableEq, BEq, Repr

/-- The channel-lifecycle operations invoked by the straight-line script
`src/src/index.ts`: the buffered sender is constructed and
`uploadDocuments` is awaited; the program text contains no `flush()`
and no `dispose()` call on any path (neither after the upload nor in
any error handler — there is none). -/
def indexTsChannelEvents : List ChannelEvent :=
  [ChannelEvent.construct, ChannelEvent.upload]

/-- The channel-lifecycle operations invoked by the buffered-sender
variant (part_004 / the buffered script in part_007):
`uploadDocuments`, `flush` and `dispose` are awaited in sequence with
no try/finally, so a rejection thrown by an earlier awaited call
aborts the script before the later calls run.  `uploadOk` / `flushOk`
say whether the corresponding awaited call resolved. -/
def bufferedScriptChannelEvents (uploadOk flushOk : Bool) : List ChannelEvent :=
  ChannelEvent.construct :: ChannelEvent.upload ::
    (if uploadOk then
      ChannelEvent.flush ::
        (if flushOk then [ChannelEvent.dispose] else [])
    else [])

/-- `Response.ok` of the Fetch API: true exactly for 2xx statuses. -/
def statusOk (status : Nat) : Bool :=
  200 ≤ status && status < 300

/-- A request issued during knowledge-source registration: the GET
existence probe or the POST create request. -/
inductive KSReq where
  | getProbe
  | createPost
deriving DecidableEq, BEq, Repr

/-- How one `createKnowledgeSource` call ends: it returned reusing the
existing resource, it created the resource, or it threw a hard error
carrying the create request's status. -/
inductive KSOutcome where
  | usedExisting
  | created
  | errorCreate (status : Nat)
deriving DecidableEq, Repr

/-- The client logic of `createKnowledgeSource` as a function of the
transport statuses it observes: first the GET probe; if the probe
response is ok the function logs and returns without any further
request; otherwise (any non-ok probe status) it issues the POST create
request and throws only if that POST is itself non-ok. -/
def createKnowledgeSourceRun (probeStatus createStatus : Nat) :
    KSOutcome × List KSReq :=
  if statusOk probeStatus then
    (KSOutcome.usedExisting, [KSReq.getProbe])
  else if statusOk createStatus then
    (KSOutcome.created, [KSReq.getProbe, KSReq.createPost])
  else
    (KSOutcome.errorCreate createStatus, [KSReq.getProbe, KSReq.createPost])

/-- The knowledge-source side of the service, for the idempotence claim:
the set of existing source names.  The GET probe answers 200 when the
name exists and 404 when it does not; a POST create answers 201 and
adds the name. -/
structure KSState where
  sources : List String
deriving DecidableEq, Repr

/-- One `createKnowledgeSource(name)` call against service state `st`:
the client logic of `createKnowledgeSourceRun` driven by the service's
probe and create statuses, threading the state.  Returns the new state,
the outcome and the requests issued. -/
def createKnowledgeSource (st : KSState) (name : String) :
    KSState × KSOutcome × List KSReq :=
  let probeStatus := if name ∈ st.sources then 200 else 404
  let r := createKnowledgeSourceRun probeStatus 201
  let st' := if r.1 = KSOutcome.created then ⟨st.sources ++ [name]⟩ else st
  (st', r.1, r.2)

/-- A knowledge-base definition as the code assembles it: the name, the
bound knowledge sources, the output mode and the answer-instruction
template (the varying part in the upsert claim). -/
structure KBDef where
  name : String
  knowledgeSources : List String
  outputMode : String
  answerInstructions : String
deriving DecidableEq, Repr

/-- A request issued during knowledge-base registration: the GET probe
(used only to word the success log line) or the PUT of a full
definition. -/
inductive KBReq where
  | getProbe
  | putDef (d : KBDef)
deriving DecidableEq, BEq, Repr

/-- The knowledge-base store of the service: the existing definitions,
at most one per name (PUT overwrites by name). -/
def findKB (st : List KBDef) (n : String) : Option KBDef :=
  st.find? (fun b => b.name == n)

/-- One `createKnowledgeBase` call with definition `d` against store
`st`: the code issues the GET probe (its result only selects the
logged word "updated" vs "created") and then unconditionally PUTs the
full definition to `knowledgebases/(name)`, which replaces any
existing definition of that name. -/
def createKnowledgeBase (st : List KBDef) (d : KBDef) :
    List KBDef × List KBReq :=
  (st.filter (fun b => b.name ≠ d.name) ++ [d],
    [KBReq.getProbe, KBReq.putDef d])

/-- A conversation turn (`KnowledgeAgentMessage`): a role and a plain
text content. -/
structure Msg where
  role : String
  content : String
deriving DecidableEq, Repr

/-- A message as it appears in the outgoing retrieval request payload:
the role and a content array of typed text parts, as built by
`messages.map(msg => ({ role: msg.role, content: [{ type: "text", text: msg.content }] }))`. -/
structure AgentMsg where
  role : String
  content : List (String × String)
deriving DecidableEq, Repr

/-- The payload translation of `callAgenticRetrieval`: each turn
becomes a role plus one `("text", content)` part. -/
def toAgentMessages (msgs : List Msg) : List AgentMsg :=
  msgs.map (fun m => AgentMsg.mk m.role [("text", m.content)])

/-- The first query of `runAgenticRetrieval`. -/
def query1 : String :=
  "Why do suburban belts display larger December brightening than urban cores even though absolute light levels are higher downtown? Why is the Phoenix nighttime street grid is so sharply visible from space, whereas large stretches of the interstate between midwestern cities remain comparatively dim?"

/-- The system turn of `runAgenticRetrieval`. -/
def systemMsg : Msg :=
  { role := "system"
    content := "A Q&A agent that can answer questions about the Earth at night.\nSources have a JSON format with a ref_id that must be cited in the answer.\nIf you do not have the answer, respond with \"I don't know\"." }

/-- The initial conversation of `runAgenticRetrieval`: the system turn
and the first user turn. -/
def initialMessages : List Msg :=
  [systemMsg, { role := "user", content := query1 }]

/-- The follow-up question of `continueConversation`. -/
def followUpQuestion : String := "How do I find lava at night?"

/-- The conversation after the first retrieval call: the assistant
reply `a1` is appended (`messages.push({ role: "assistant", content: assistantContent })`). -/
def messagesAfterFirstReply (a1 : String) : List Msg :=
  initialMessages ++ [{ role := "assistant", content := a1 }]

/-- The outgoing message payload of the second retrieval call in
`continueConversation`: the follow-up user turn is pushed onto the
conversation, the system turn is filtered out, and the remaining turns
are translated by `callAgenticRetrieval`. -/
def continueConversationPayload (msgs : List Msg) : List AgentMsg :=
  toAgentMessages
    ((msgs ++ [Msg.mk "user" followUpQuestion]).filter
      (fun m => m.role ≠ "system"))

theorem monitorLoop_some_eq (expected : Nat) (counts : Nat → Nat) :
    ∀ fuel i j, (monitorLoop expected counts i fuel).2 = some j →
      counts j = expected ∧
      lastRead (monitorLoop expected counts i fuel).1 = some expected := by
  intro fuel
  induction fuel with
  | zero =>
    intro i j h
    simp [monitorLoop] at h
  | succ n ih =>
    intro i j h
    by_cases hc : counts i = expected
    · simp only [monitorLoop, hc, if_pos rfl, if_true] at h ⊢
      simp at h
      subst h
      simp [lastRead, hc]
    · simp only [monitorLoop, if_neg hc] at h ⊢
      have := ih (i + 1) j h
      refine ⟨this.1, ?_⟩
      simp [lastRead, this.2]

theorem monitorLoop_delays (expected : Nat) (counts : Nat → Nat) :
    ∀ fuel i, unequalReadsDelayed expected (monitorLoop expected counts i fuel).1 = true := by
  intro fuel
  induction fuel with
  | zero =>
    intro i
    simp [monitorLoop, unequalReadsDelayed]
  | succ n ih =>
    intro i
    by_cases hc : counts i = expected
    · simp [monitorLoop, hc, unequalReadsDelayed]
    · simp only [monitorLoop, if_neg hc]
      simp [unequalReadsDelayed, ih (i + 1)]

theorem monitorLoop_none_of_never (expected : Nat) (counts : Nat → Nat)
    (h : ∀ i, counts i ≠ expected) :
    ∀ fuel i, (monitorLoop expected counts i fuel).2 = none := by
  intro fuel
  induction fuel with
  | zero => intro i; simp [monitorLoop]
  | succ n ih =>
    intro i
    simp only [monitorLoop, if_neg (h i)]
    exact ih (i + 1)

theorem monitorLoop_reaches (expected : Nat) (counts : Nat → Nat) :
    ∀ n start, counts (start + n) = expected →
      ((monitorLoop expected counts start (n + 1)).2).isSome = true := by
  intro n
  induction n with
  | zero =>
    intro start h
    simp at h
    simp [monitorLoop, h]
  | succ m ih =>
    intro start h
    by_cases hc : counts start = expected
    · simp [monitorLoop, hc]
    · simp only [monitorLoop, if_neg hc]
      have hx : counts (start + 1 + m) = expected := by
        have : start + 1 + m = start + (m + 1) := by omega
        rw [this]
        exact h
      exact ih (start + 1) hx

/-- C1: for every document set (expected count) and every sequence of
counts reported by the index, the trace of the convergence loop delays
a fixed 4000 ms after each read that is unequal to the expected count
before the next read, and whenever the loop returns (`some j`), the
read it returned on — the most recently read reported count — equals
the expected count. -/
theorem convergenceMonitor_returns_only_converged (expected : Nat)
    (counts : Nat → Nat) (fuel : Nat) :
    unequalReadsDelayed expected (awaitConvergence expected counts fuel).1 = true ∧
    ∀ j, (awaitConvergence expected counts fuel).2 = some j →
      counts j = expected ∧
      lastRead (awaitConvergence expected counts fuel).1 = some expected := by
  constructor
  · simpa [awaitConvergence, unequalReadsDelayed] using
      monitorLoop_delays expected counts fuel 0
  · intro j h
    have hj : (monitorLoop expected counts 0 fuel).2 = some j := by
      simpa [awaitConvergence] using h
    have := monitorLoop_some_eq expected counts fuel 0 j hj
    exact ⟨this.1, by simpa [awaitConvergence, lastRead] using this.2⟩

/-- Witness for C1 at a concrete run: the index reports 1 then 2 while
2 documents are expected; the loop returns on the second read, which
equals the expected count, and the unequal first read was followed by
the 4000 ms delay. -/
theorem convergenceMonitor_returns_only_converged_witness :
    unequalReadsDelayed 2 (awaitConvergence 2 (fun i => i + 1) 5).1 = true ∧
    (fun i => i + 1) 1 = 2 ∧
    lastRead (awaitConvergence 2 (fun i => i + 1) 5).1 = some 2 := by
  have h := convergenceMonitor_returns_only_converged 2 (fun i => i + 1) 5
  exact ⟨h.1, (h.2 1 (by decide)).1, (h.2 1 (by decide)).2⟩

/-- C2: the convergence monitor has no retry ceiling or timeout — if no
read ever equals the expected count (including when every reported
count exceeds it) then for every number of polls the loop is still
running, and the loop returns within finitely many polls exactly when
some read equals the expected count. -/
theorem convergenceMonitor_unbounded_termination (expected : Nat)
    (counts : Nat → Nat) :
    ((∀ i, counts i ≠ expected) →
      ∀ fuel, (awaitConvergence expected counts fuel).2 = none) ∧
    ((∃ fuel, ((awaitConvergence expected counts fuel).2).isSome = true) ↔
      ∃ i, counts i = expected) := by
  constructor
  · intro h fuel
    simpa [awaitConvergence] using monitorLoop_none_of_never expected counts h fuel 0
  · constructor
    · rintro ⟨fuel, hs⟩
      have hs' : ((monitorLoop expected counts 0 fuel).2).isSome = true := by
        simpa [awaitConvergence] using hs
      rcases Option.isSome_iff_exists.mp hs' with ⟨j, hj⟩
      exact ⟨j, (monitorLoop_some_eq expected counts fuel 0 j hj).1⟩
    · rintro ⟨i, hi⟩
      refine ⟨i + 1, ?_⟩
      have : counts (0 + i) = expected := by simpa using hi
      simpa [awaitConvergence] using monitorLoop_reaches expected counts i 0 this

/-- Witness for C2 at a concrete run: every reported count exceeds the
expected count 2 (the counts are 3, 4, 5, …), the monitor never
returns for any number of polls, and the return criterion is exactly
that some read equals 2 — which never happens here. -/
theorem convergenceMonitor_unbounded_termination_witness :
    (∀ fuel, (awaitConvergence 2 (fun i => i + 3) fuel).2 = none) ∧
    ((∃ fuel, ((awaitConvergence 2 (fun i => i + 3) fuel).2).isSome = true) ↔
      ∃ i, i + 3 = 2) := by
  have h := convergenceMonitor_unbounded_termination 2 (fun i => i + 3)
  exact ⟨h.1 (fun i => by omega), h.2⟩

/-- C3: the document source adapter never raises to its caller — it is
a total function of the transport outcome, and every non-success
response (any status) and every malformed payload yields the built-in
fallback set, which has exactly 2 documents with ids "1" and "2". -/
theorem fetchDocuments_fallback_on_failure :
    (∀ status, fetchEarthAtNightDocuments (FetchOutcome.httpError status) =
      fallbackDocuments) ∧
    fetchEarthAtNightDocuments FetchOutcome.malformed = fallbackDocuments ∧
    fallbackDocuments.length = 2 ∧
    fallbackDocuments.map (fun d => d.id) = ["1", "2"] :=
  ⟨fun _ => rfl, rfl, rfl, rfl⟩

/-- C4 (code evaluated at the failing inputs): the channel-lifecycle
trace of `src/src/index.ts` contains no dispose call even on normal
completion, and in the buffered-sender variant a flush rejection or an
upload rejection skips dispose; only the all-success straight-line path
of the buffered variant disposes exactly once, and there it comes after
flush. -/
theorem dispose_not_invoked_on_exit_paths :
    indexTsChannelEvents.count ChannelEvent.dispose = 0 ∧
    (bufferedScriptChannelEvents true false).count ChannelEvent.dispose = 0 ∧
    (bufferedScriptChannelEvents false true).count ChannelEvent.dispose = 0 ∧
    (bufferedScriptChannelEvents true true).count ChannelEvent.dispose = 1 ∧
    bufferedScriptChannelEvents true true =
      [ChannelEvent.construct, ChannelEvent.upload, ChannelEvent.flush,
        ChannelEvent.dispose] := by
  decide

theorem continueConversationPayload_eq (a1 : String) :
    continueConversationPayload (messagesAfterFirstReply a1) =
      [AgentMsg.mk "user" [("text", query1)],
        AgentMsg.mk "assistant" [("text", a1)],
        AgentMsg.mk "user" [("text", followUpQuestion)]] := rfl

/-- C5: in the retrieval session of `runAgenticRetrieval` /
`continueConversation`, once the first query's assistant reply has been
appended to the conversation, the second query's outgoing message
payload contains that assistant turn and the first user turn —
conversational context carries forward to the second retrieval call. -/
theorem second_query_carries_context (a1 : String) :
    AgentMsg.mk "assistant" [("text", a1)] ∈
      continueConversationPayload (messagesAfterFirstReply a1) ∧
    AgentMsg.mk "user" [("text", query1)] ∈
      continueConversationPayload (messagesAfterFirstReply a1) := by
  rw [continueConversationPayload_eq]
  exact ⟨by simp, by simp⟩

theorem statusOk_200 : statusOk 200 = true := rfl

theorem statusOk_201 : statusOk 201 = true := rfl

theorem statusOk_404 : statusOk 404 = false := rfl

theorem createKnowledgeSource_mem_after (st : KSState) (name : String) :
    name ∈ ((createKnowledgeSource st name).1).sources := by
  by_cases hm : name ∈ st.sources
  · simp [createKnowledgeSource, createKnowledgeSourceRun, hm, statusOk_200]
  · simp [createKnowledgeSource, createKnowledgeSourceRun, hm, statusOk_404,
      statusOk_201]

theorem createKnowledgeSource_exists_noop (st1 : KSState) (name : String)
    (hmem : name ∈ st1.sources) :
    createKnowledgeSource st1 name =
      (st1, KSOutcome.usedExisting, [KSReq.getProbe]) := by
  simp [createKnowledgeSource, createKnowledgeSourceRun, hmem, statusOk_200]

theorem createKnowledgeSource_count (st : KSState) (name : String)
    (hnm : name ∉ st.sources) :
    ((createKnowledgeSource st name).1).sources.count name = 1 := by
  have hz : st.sources.count name = 0 := List.count_eq_zero.mpr hnm
  simp [createKnowledgeSource, createKnowledgeSourceRun, hnm, statusOk_404,
    statusOk_201, List.count_append, hz]

/-- C6: knowledge-source creation is idempotent — after any first call,
a second call with the same name finds the existence probe succeeding,
so it reuses the existing resource without issuing a create request,
reports no error, leaves the service state unchanged, and a name that
was absent before the first call exists exactly once afterwards. -/
theorem createKnowledgeSource_idempotent (st : KSState) (name : String) :
    (createKnowledgeSource (createKnowledgeSource st name).1 name).2.1 =
      KSOutcome.usedExisting ∧
    (createKnowledgeSource (createKnowledgeSource st name).1 name).2.2 =
      [KSReq.getProbe] ∧
    (createKnowledgeSource (createKnowledgeSource st name).1 name).1 =
      (createKnowledgeSource st name).1 ∧
    (name ∉ st.sources →
      ((createKnowledgeSource st name).1).sources.count name = 1) := by
  have hmem := createKnowledgeSource_mem_after st name
  have h2 := createKnowledgeSource_exists_noop (createKnowledgeSource st name).1
    name hmem
  exact ⟨by rw [h2], by rw [h2], by rw [h2],
    fun hnm => createKnowledgeSource_count st name hnm⟩

/-- Witness for C6: creating "earth-knowledge-source" twice starting
from a service with no knowledge sources — the second call reuses,
issues only the probe, changes nothing, and the source exists once. -/
theorem createKnowledgeSource_idempotent_witness :
    (createKnowledgeSource
        (createKnowledgeSource ⟨[]⟩ "earth-knowledge-source").1
        "earth-knowledge-source").2.1 = KSOutcome.usedExisting ∧
    (createKnowledgeSource
        (createKnowledgeSource ⟨[]⟩ "earth-knowledge-source").1
        "earth-knowledge-source").2.2 = [KSReq.getProbe] ∧
    (createKnowledgeSource
        (createKnowledgeSource ⟨[]⟩ "earth-knowledge-source").1
        "earth-knowledge-source").1 =
      (createKnowledgeSource ⟨[]⟩ "earth-knowledge-source").1 ∧
    ((createKnowledgeSource ⟨[]⟩ "earth-knowledge-source").1).sources.count
      "earth-knowledge-source" = 1 := by
  have h := createKnowledgeSource_idempotent ⟨[]⟩ "earth-knowledge-source"
  exact ⟨h.1, h.2.1, h.2.2.1, h.2.2.2 (by simp)⟩

theorem findKB_filter_append (l : List KBDef) (d : KBDef) :
    findKB (l.filter (fun b => b.name ≠ d.name) ++ [d]) d.name = some d := by
  induction l with
  | nil => simp [findKB]
  | cons b t ih =>
    by_cases hb : b.name = d.name
    · simpa [List.filter_cons, hb] using ih
    · rw [List.filter_cons_of_pos (by simpa using hb), List.cons_append]
      show List.find? _ _ = _
      rw [List.find?_cons_of_neg _ (by simpa using hb)]
      exact ih

/-- C7: knowledge-base registration is a create-or-replace upsert — for
two successive calls with the same name and different instruction
templates, the second call issues the full latest definition via PUT
(its request list is exactly the probe followed by the PUT of the
second definition), and afterwards the stored definition under that
name is the second one, whether or not the base existed before. -/
theorem createKnowledgeBase_upsert (st : List KBDef) (d1 d2 : KBDef)
    (_hname : d1.name = d2.name)
    (_hinstr : d1.answerInstructions ≠ d2.answerInstructions) :
    (createKnowledgeBase (createKnowledgeBase st d1).1 d2).2 =
      [KBReq.getProbe, KBReq.putDef d2] ∧
    findKB (createKnowledgeBase (createKnowledgeBase st d1).1 d2).1 d2.name =
      some d2 := by
  refine ⟨rfl, ?_⟩
  exact findKB_filter_append (createKnowledgeBase st d1).1 d2

/-- Witness for C7: registering "earth-knowledge-base" twice on an
empty store with different answer instructions — the second call PUTs
the second definition and it takes effect. -/
theorem createKnowledgeBase_upsert_witness :
    (createKnowledgeBase
        (createKnowledgeBase []
          (KBDef.mk "earth-knowledge-base" ["earth-knowledge-source"]
            "answerSynthesis"
            "Provide a two sentence concise and informative answer based on the retrieved documents.")).1
        (KBDef.mk "earth-knowledge-base" ["earth-knowledge-source"]
          "answerSynthesis" "Answer in a single sentence.")).2 =
      [KBReq.getProbe,
        KBReq.putDef
          (KBDef.mk "earth-knowledge-base" ["earth-knowledge-source"]
            "answerSynthesis" "Answer in a single sentence.")] ∧
    findKB
      (createKnowledgeBase
        (createKnowledgeBase []
          (KBDef.mk "earth-knowledge-base" ["earth-knowledge-source"]
            "answerSynthesis"
            "Provide a two sentence concise and informative answer based on the retrieved documents.")).1
        (KBDef.mk "earth-knowledge-base" ["earth-knowledge-source"]
          "answerSynthesis" "Answer in a single sentence.")).1
      "earth-knowledge-base" =
      some (KBDef.mk "earth-knowledge-base" ["earth-knowledge-source"]
        "answerSynthesis" "Answer in a single sentence.") :=
  createKnowledgeBase_upsert []
    (KBDef.mk "earth-knowledge-base" ["earth-knowledge-source"]
      "answerSynthesis"
      "Provide a two sentence concise and informative answer based on the retrieved documents.")
    (KBDef.mk "earth-knowledge-base" ["earth-knowledge-source"]
      "answerSynthesis" "Answer in a single sentence.")
    rfl (by decide)

/-- C8 counterexample: with a 500 status on the existence probe (and a
successful create), `createKnowledgeSource` treats the probe failure
as absence — it issues the create POST and ends with `created`, not
with a hard error raised at the probe, contradicting the claim that
every non-success probe status other than "not found" is surfaced as
a hard error rather than treated as absence. -/
theorem probe_error_treated_as_absence :
    (createKnowledgeSourceRun 500 201).1 = KSOutcome.created ∧
    KSReq.createPost ∈ (createKnowledgeSourceRun 500 201).2 := by
  refine ⟨rfl, ?_⟩
  simp [createKnowledgeSourceRun, statusOk]

/-- C8 amended: a "not found" probe result triggers creation, and so
does every other non-success probe status (401, 500, …) — all are
treated as absence; a hard error is surfaced only when the create
request itself returns a non-success status. -/
theorem probe_nonsuccess_triggers_creation (probeStatus createStatus : Nat)
    (h : statusOk probeStatus = false) :
    KSReq.createPost ∈ (createKnowledgeSourceRun probeStatus createStatus).2 ∧
    (statusOk createStatus = true →
      (createKnowledgeSourceRun probeStatus createStatus).1 =
        KSOutcome.created) ∧
    (statusOk createStatus = false →
      (createKnowledgeSourceRun probeStatus createStatus).1 =
        KSOutcome.errorCreate createStatus) := by
  by_cases hc : statusOk createStatus
  · simp [createKnowledgeSourceRun, h, hc]
  · simp only [Bool.not_eq_true] at hc
    simp [createKnowledgeSourceRun, h, hc]

/-- Witness for C8 amended: a 404 probe with a 201 create — creation is
triggered and no hard error is raised. -/
theorem probe_nonsuccess_triggers_creation_witness :
    KSReq.createPost ∈ (createKnowledgeSourceRun 404 201).2 ∧
    (statusOk 201 = true →
      (createKnowledgeSourceRun 404 201).1 = KSOutcome.created) ∧
    (statusOk 201 = false →
      (createKnowledgeSourceRun 404 201).1 = KSOutcome.errorCreate 201) :=
  probe_nonsuccess_triggers_creation 404 201 rfl

/-- C9: normalization defaults — a missing identifier becomes the
position-based string `String(position+1)`; missing content becomes the
empty string after trying the alternate `content` field (a present
non-empty `content` is used instead); a missing embedding becomes a
vector of length 3072 filled with the placeholder 0.1 (the rational
1/10); and a missing page ordinal becomes position+1. -/
theorem normalizeDoc_defaults (index : Nat) (doc : RawDoc) :
    (doc.id = none → (normalizeDoc index doc).id = toString (index + 1)) ∧
    (doc.page_chunk = none → doc.content = none →
      (normalizeDoc index doc).page_chunk = "") ∧
    (doc.page_chunk = none → ∀ c, doc.content = some c → c ≠ "" →
      (normalizeDoc index doc).page_chunk = c) ∧
    (doc.page_embedding_text_3_large = none →
      (normalizeDoc index doc).page_embedding_text_3_large =
        List.replicate 3072 (1/10 : ℚ)) ∧
    (doc.page_number = none →
      (normalizeDoc index doc).page_number = Int.ofNat (index + 1)) := by
  refine ⟨?_, ?_, ?_, ?_, ?_⟩
  · intro h
    simp only [normalizeDoc, h, jsOrString]
  · intro h hc
    simp only [normalizeDoc, h, hc, jsOrString]
  · intro h c hc hne
    simp only [normalizeDoc, h, hc, jsOrString, if_neg hne]
  · intro h
    simp only [normalizeDoc, h, jsOrArray]
  · intro h
    simp only [normalizeDoc, h, jsOrInt]

/-- Witness for C9 at concrete records: a record with every field
absent at position 4 gets id "5", empty content, the 3072-long 0.1
placeholder embedding and page ordinal 5; one whose only present field
is `content` gets that content. -/
theorem normalizeDoc_defaults_witness :
    (normalizeDoc 4 (RawDoc.mk none none none none none)).id = toString (4 + 1) ∧
    (normalizeDoc 4 (RawDoc.mk none none none none none)).page_chunk = "" ∧
    (normalizeDoc 4 (RawDoc.mk none none (some "alt") none none)).page_chunk =
      "alt" ∧
    (normalizeDoc 4 (RawDoc.mk none none none none none)).page_embedding_text_3_large =
      List.replicate 3072 (1/10 : ℚ) ∧
    (normalizeDoc 4 (RawDoc.mk none none none none none)).page_number =
      Int.ofNat (4 + 1) := by
  have h1 := normalizeDoc_defaults 4 (RawDoc.mk none none none none none)
  have h2 := normalizeDoc_defaults 4 (RawDoc.mk none none (some "alt") none none)
  exact ⟨h1.1 rfl, h1.2.1 rfl rfl, h2.2.2.1 rfl "alt" rfl (by decide),
    h1.2.2.2.1 rfl, h1.2.2.2.2 rfl⟩

/-- C10 (implicit): normalization treats present-but-falsy values as
missing, because defaulting uses the JS logical-OR — a present page
ordinal 0 becomes position+1, a present empty-string id becomes the
position-based id, and a present empty-string `page_chunk` falls
through to the alternate `content` field or the empty string, instead
of the provided values being preserved. -/
theorem normalizeDoc_falsy_as_missing (index : Nat) (doc : RawDoc) :
    (doc.page_number = some 0 →
      (normalizeDoc index doc).page_number = Int.ofNat (index + 1)) ∧
    (doc.id = some "" → (normalizeDoc index doc).id = toString (index + 1)) ∧
    (doc.page_chunk = some "" → doc.content = none →
      (normalizeDoc index doc).page_chunk = "") ∧
    (doc.page_chunk = some "" → ∀ c, doc.content = some c → c ≠ "" →
      (normalizeDoc index doc).page_chunk = c) := by
  refine ⟨?_, ?_, ?_, ?_⟩
  · intro h
    simp only [normalizeDoc, h, jsOrInt]
    rw [if_true]
  · intro h
    simp only [normalizeDoc, h, jsOrString]
    rw [if_true]
  · intro h hc
    simp only [normalizeDoc, h, hc, jsOrString]
    rw [if_true]
  · intro h c hc hne
    simp only [normalizeDoc, h, hc, jsOrString]
    rw [if_true, if_neg hne]

/-- Witness for C10 at concrete records: at position 4, a record whose
`page_number` is present as 0, whose `id` is present as "", and whose
`page_chunk` is present as "" receives page ordinal 5, id "5" and —
with `content` present as "alt" — the alternate content. -/
theorem normalizeDoc_falsy_as_missing_witness :
    (normalizeDoc 4 (RawDoc.mk (some "") (some "") none none (some 0))).page_number =
      Int.ofNat (4 + 1) ∧
    (normalizeDoc 4 (RawDoc.mk (some "") (some "") none none (some 0))).id =
      toString (4 + 1) ∧
    (normalizeDoc 4 (RawDoc.mk (some "") (some "") none none (some 0))).page_chunk =
      "" ∧
    (normalizeDoc 4 (RawDoc.mk (some "") (some "") (some "alt") none (some 0))).page_chunk =
      "alt" := by
  have h1 := normalizeDoc_falsy_as_missing 4
    (RawDoc.mk (some "") (some "") none none (some 0))
  have h2 := normalizeDoc_falsy_as_missing 4
    (RawDoc.mk (some "") (some "") (some "alt") none (some 0))
  exact ⟨h1.1 rfl, h1.2.1 rfl, h1.2.2.1 rfl rfl,
    h2.2.2.2 rfl "alt" rfl (by decide)⟩

end AgenticQuickstart
